import Mathlib

/-!
Verification of the orchestration core of `go-agents-orchestration`.

The embedding translates `pkg/state/state.go`, `pkg/state/checkpoint.go`,
`pkg/state/graph.go` and the `Resume`/`findNextNode`/`executeFrom` code of
`_context/phase-06-checkpointing.md` into Lean.

Modelling decisions, stated once here:

* Go maps (`map[string]V`) are modelled as functions `String → Option V`
  (`GoMap`); assignment, deletion and `maps.Copy` are pointwise operations,
  which agree with the Go loops because keys in a Go map are unique.
* Go heap mutation of maps matters for the immutability claims about `State`:
  `Set` clones the map before assigning.  We therefore model the heap of
  allocated maps explicitly (`World`): a `State` holds a reference (`Nat`)
  into the heap, `maps.Clone` allocates a fresh cell, and assignment writes
  through the reference.  `time.Now()` is modelled by a logical clock in the
  same `World`; `uuid.New()` is a parameter of `State.New`.
* The graph's maps (`nodes`, `edges`, `exitPoints`) are association lists,
  because `Validate` takes their length and iterates over them.
* Go `error` values are a deep embedding `GoError` with one constructor per
  `fmt.Errorf` call site (each call site yields a distinct error value in Go);
  `%w` wrapping is a constructor argument and `GoError.unwrap` mirrors
  `errors.Unwrap`.  `*ExecutionError` is the `GoError.execution` constructor
  carrying `NodeName`, `State`, `Path` and `Err`; its `Unwrap` returns `Err`.
* The observer is ignored for control flow (it only emits events); instead the
  interpreter appends the events it would emit to a trace (`GEvent`), and it
  also logs every `Save`/`Delete` call it makes on the checkpoint store.
  `State` operations' events are not traced (no claim mentions them).
* The checkpoint store bound to a graph follows the in-memory reference
  implementation (`memoryCheckpointStore`): contents are carried in the
  execution context, `Save` overwrites by runID and returns nil.
* `context.Context` cancellation is an oracle `Ctx : Int → Bool` giving the
  result of `ctx.Err() != nil` at each top-of-loop check, indexed by the value
  of `iterations` at that check.
-/

namespace GoAgents

/-- A Go `map[string]α` value, as the function from keys to stored values. -/
def GoMap (α : Type) : Type := String → Option α

/-- The empty Go map (`make(map[string]α)` and the nil map read the same). -/
def GoMap.empty {α : Type} : GoMap α := fun _ => none

/-- Go map read `m[k]`. -/
def GoMap.lookup {α : Type} (m : GoMap α) (k : String) : Option α := m k

/-- Go map assignment `m[k] = v`. -/
def GoMap.assign {α : Type} (m : GoMap α) (k : String) (v : α) : GoMap α :=
  fun q => if q = k then some v else m q

/-- Go `delete(m, k)`. -/
def GoMap.erase {α : Type} (m : GoMap α) (k : String) : GoMap α :=
  fun q => if q = k then none else m q

/-- `maps.Copy(dst, src)`: every key of `src` is assigned into `dst`.
Pointwise this means `src` wins wherever it has a key. -/
def mapsCopy {α : Type} (dst src : GoMap α) : GoMap α :=
  fun q => match src q with
  | some v => some v
  | none => dst q

/-- `maps.Clone(m)`: a fresh map with the same contents.  The freshness is
handled by `World.allocMap`; the contents are the same value. -/
def mapsClone {α : Type} (m : GoMap α) : GoMap α := m

/-- The Go heap of allocated `map[string]α` cells plus a logical clock for
`time.Now()`.  `cells r` is meaningful for `r < size`; a reference `≥ size`
behaves as a nil map for reads. -/
structure World (α : Type) where
  cells : Nat → GoMap α
  size : Nat
  clock : Nat

/-- Allocate a fresh map cell holding `m`; returns the new world and the
reference to the new cell. -/
def World.allocMap {α : Type} (w : World α) (m : GoMap α) : World α × Nat :=
  ({ w with cells := fun r => if r = w.size then m else w.cells r,
            size := w.size + 1 }, w.size)

/-- Read the map behind a reference (a dangling reference reads as nil map). -/
def World.readMap {α : Type} (w : World α) (r : Nat) : GoMap α :=
  if r < w.size then w.cells r else GoMap.empty

/-- Overwrite the map behind a reference (in-place Go map mutation). -/
def World.writeMap {α : Type} (w : World α) (r : Nat) (m : GoMap α) : World α :=
  { w with cells := fun q => if q = r then m else w.cells q }

/-- `time.Now()`: returns the current instant and advances the clock. -/
def World.now {α : Type} (w : World α) : World α × Nat :=
  ({ w with clock := w.clock + 1 }, w.clock)

/-- A reference `r` is live in `w`. -/
def World.ValidRef {α : Type} (w : World α) (r : Nat) : Prop := r < w.size

instance {α : Type} (w : World α) (r : Nat) : Decidable (w.ValidRef r) :=
  inferInstanceAs (Decidable (r < w.size))

/-- `pkg/state/state.go` `State`: immutable workflow state.  `data` is a
reference to a heap map cell; `observer` is an opaque capability reference;
`runID`, `checkpointNode`, `timestamp` are the phase-06 checkpoint metadata. -/
structure State where
  data : Nat
  observer : Nat
  runID : String
  checkpointNode : String
  timestamp : Nat
deriving DecidableEq

/-- The Go zero value `State{}` (nil data map, empty strings). -/
def State.goZero : State :=
  { data := 0, observer := 0, runID := "", checkpointNode := "", timestamp := 0 }

/-- Accessor `RunID()`. -/
def State.RunID (s : State) : String := s.runID

/-- Accessor `CheckpointNode()`. -/
def State.CheckpointNode (s : State) : String := s.checkpointNode

/-- Accessor `Timestamp()`. -/
def State.Timestamp (s : State) : Nat := s.timestamp

/-- `New(observer)`: fresh empty data map, fresh runID (`uuid.New()` is the
`runID` parameter), `timestamp` now.  A nil observer is replaced by the no-op
observer (reference `0`). -/
def State.New {α : Type} (w : World α) (observer : Option Nat) (runID : String) :
    World α × State :=
  let obs := match observer with
    | none => 0
    | some o => o
  let a := w.allocMap GoMap.empty
  let n := a.1.now
  (n.1, { data := a.2, observer := obs, runID := runID, checkpointNode := "",
          timestamp := n.2 })

/-- `Clone()`: `maps.Clone` the data into a fresh cell; every other field is
copied unchanged. -/
def State.Clone {α : Type} (s : State) (w : World α) : World α × State :=
  let a := w.allocMap (mapsClone (w.readMap s.data))
  (a.1, { s with data := a.2 })

/-- `Get(key)`: value and existence flag. -/
def State.Get {α : Type} (s : State) (w : World α) (key : String) :
    Option α × Bool :=
  match (w.readMap s.data).lookup key with
  | some v => (some v, true)
  | none => (none, false)

/-- `Set(key, value)`: clone, then assign into the clone's map cell. -/
def State.Set {α : Type} (s : State) (w : World α) (key : String) (value : α) :
    World α × State :=
  let c := s.Clone w
  let ns := c.2
  (c.1.writeMap ns.data ((c.1.readMap ns.data).assign key value), ns)

/-- `SetCheckpointNode(node)`: clone, set `checkpointNode`, stamp `time.Now()`. -/
def State.SetCheckpointNode {α : Type} (s : State) (w : World α) (node : String) :
    World α × State :=
  let c := s.Clone w
  let n := c.1.now
  (n.1, { c.2 with checkpointNode := node, timestamp := n.2 })

/-- `Merge(other)`: clone, then `maps.Copy` the other state's data into the
clone's map cell (other wins on common keys). -/
def State.Merge {α : Type} (s : State) (w : World α) (other : State) :
    World α × State :=
  let c := s.Clone w
  let ns := c.2
  (c.1.writeMap ns.data (mapsCopy (c.1.readMap ns.data) (c.1.readMap other.data)), ns)

/-- Go error values, one constructor per `fmt.Errorf` call site of the
embedded code (distinct call sites produce distinct Go error values); a
constructor with a `cause` argument is a `%w` wrap.  `execution` is the
`*ExecutionError` of `pkg/state` with fields `NodeName`, `State`, `Path`,
`Err`.  `external` stands for error values produced outside the embedded
code (by nodes). -/
inductive GoError where
  | external (code : Nat) (msg : String)
  | canceled
  | unknownObserver (name : String)
  | unknownCheckpointStore (name : String)
  | failedToResolveObserver (cause : GoError)
  | failedToResolveCheckpointStore (cause : GoError)
  | emptyNodeName
  | nilNode
  | duplicateNode (name : String)
  | emptyFromNode
  | emptyToNode
  | missingFromNode (name : String)
  | missingToNode (name : String)
  | emptyEntryPoint
  | entryPointAlreadySet (name : String)
  | missingEntryNode (name : String)
  | emptyExitPoint
  | missingExitNode (name : String)
  | graphHasNoNodes
  | entryPointNotSet
  | entryPointMissing (name : String)
  | noExitPointsSet
  | exitPointMissing (name : String)
  | validationFailed (cause : GoError)
  | executionCancelled (cause : GoError)
  | maxIterationsExceeded (maxIterations : Int)
  | nodeNotFound (node : String)
  | nodeExecutionFailed (cause : GoError)
  | checkpointSaveFailed (cause : GoError)
  | noOutgoingEdges (node : String)
  | noValidTransition (node : String)
  | execution (nodeName : String) (state : State) (path : List String)
      (err : GoError)
  | checkpointNotFound (runID : String)
  | checkpointingNotEnabled
  | failedToLoadCheckpoint (cause : GoError)
  | failedToFindNextNode (cause : GoError)
  | checkpointAtExitPoint
  | noOutgoingFromCheckpoint (node : String)
  | noValidEdgeFromCheckpoint (node : String)
  | contextCancelled (cause : GoError)
  | nodeNotFoundFrom (node : String)
  | noOutgoingEdgesFrom (node : String)
  | noValidEdgeTransition (node : String)
deriving DecidableEq

/-- The `Error()` string of each embedded error value (the `fmt.Errorf`
format of its call site). -/
def GoError.message : GoError → String
  | .external _ msg => msg
  | .canceled => "context canceled"
  | .unknownObserver name => "unknown observer: " ++ name
  | .unknownCheckpointStore name => "unknown checkpoint store: " ++ name
  | .failedToResolveObserver c => "failed to resolve observer: " ++ c.message
  | .failedToResolveCheckpointStore c =>
      "failed to resolve checkpoint store: " ++ c.message
  | .emptyNodeName => "node name cannot be empty"
  | .nilNode => "node cannot be nil"
  | .duplicateNode name => "node " ++ name ++ " already exists"
  | .emptyFromNode => "from node cannot be empty"
  | .emptyToNode => "to node cannot be empty"
  | .missingFromNode name => "from node " ++ name ++ " does not exist"
  | .missingToNode name => "to node " ++ name ++ " does not exist"
  | .emptyEntryPoint => "entry point cannot be empty"
  | .entryPointAlreadySet name => "entry point already set to " ++ name
  | .missingEntryNode name => "entry point node " ++ name ++ " does not exist"
  | .emptyExitPoint => "exit point cannot be empty"
  | .missingExitNode name => "exit points node " ++ name ++ " does not exist"
  | .graphHasNoNodes => "graph has no nodes"
  | .entryPointNotSet => "entry point not set"
  | .entryPointMissing name => "entry point " ++ name ++ " does not exist"
  | .noExitPointsSet => "no exit points set"
  | .exitPointMissing name => "exit point " ++ name ++ " does not exist"
  | .validationFailed c => "graph validation failed: " ++ c.message
  | .executionCancelled c => "execution cancelled: " ++ c.message
  | .maxIterationsExceeded m =>
      "max iterations (" ++ toString m ++ ") exceeded"
  | .nodeNotFound node => "node " ++ node ++ " not found"
  | .nodeExecutionFailed c => "node execution failed: " ++ c.message
  | .checkpointSaveFailed c => "checkpoint save failed: " ++ c.message
  | .noOutgoingEdges node =>
      "node " ++ node ++ " has not outgoing edges and is not an exit point"
  | .noValidTransition node => "no valid transition from node " ++ node
  | .execution nodeName _ _ c =>
      "execution failed at node " ++ nodeName ++ ": " ++ c.message
  | .checkpointNotFound runID => "checkpoint not found: " ++ runID
  | .checkpointingNotEnabled => "checkpointing not enabled for this graph"
  | .failedToLoadCheckpoint c => "failed to load checkpoint: " ++ c.message
  | .failedToFindNextNode c =>
      "failed to find next node after checkpoint: " ++ c.message
  | .checkpointAtExitPoint =>
      "checkpoint was at exit point, execution already complete"
  | .noOutgoingFromCheckpoint node =>
      "no outgoing edges from checkpoint node: " ++ node
  | .noValidEdgeFromCheckpoint node =>
      "no valid edge transition from checkpoint node: " ++ node
  | .contextCancelled c => "context cancelled: " ++ c.message
  | .nodeNotFoundFrom node => "node not found: " ++ node
  | .noOutgoingEdgesFrom node => "no outgoing edges from node: " ++ node
  | .noValidEdgeTransition node => "no valid edge transition from node: " ++ node

/-- `errors.Unwrap`: a `%w`-wrapping error exposes its cause, and
`(*ExecutionError).Unwrap()` returns `Err`. -/
def GoError.unwrap : GoError → Option GoError
  | .failedToResolveObserver c => some c
  | .failedToResolveCheckpointStore c => some c
  | .validationFailed c => some c
  | .executionCancelled c => some c
  | .nodeExecutionFailed c => some c
  | .checkpointSaveFailed c => some c
  | .execution _ _ _ c => some c
  | .failedToLoadCheckpoint c => some c
  | .failedToFindNextNode c => some c
  | .contextCancelled c => some c
  | _ => none

/-- `errors.Is(e, target)` over the `Unwrap` chain (equality of error values,
then recursion into the cause for the wrapping constructors, exactly the
constructors for which `GoError.unwrap` is `some`). -/
def GoError.errorsIs (e target : GoError) : Bool :=
  e = target ||
    match e with
    | .failedToResolveObserver c => c.errorsIs target
    | .failedToResolveCheckpointStore c => c.errorsIs target
    | .validationFailed c => c.errorsIs target
    | .executionCancelled c => c.errorsIs target
    | .nodeExecutionFailed c => c.errorsIs target
    | .checkpointSaveFailed c => c.errorsIs target
    | .execution _ _ _ c => c.errorsIs target
    | .failedToLoadCheckpoint c => c.errorsIs target
    | .failedToFindNextNode c => c.errorsIs target
    | .contextCancelled c => c.errorsIs target
    | _ => false

/-- `Checkpoint(store)` / `memoryCheckpointStore.Save`: store the State by
value under its runID (overwrite model); always returns nil error. -/
def MemStore.Save (store : GoMap State) (s : State) : GoMap State × Option GoError :=
  (store.assign s.runID s, none)

/-- `memoryCheckpointStore.Load`: not-found error for unknown runIDs. -/
def MemStore.Load (store : GoMap State) (runID : String) : Except GoError State :=
  match store.lookup runID with
  | some s => Except.ok s
  | none => Except.error (GoError.checkpointNotFound runID)

/-- `memoryCheckpointStore.Delete`: always returns nil error. -/
def MemStore.Delete (store : GoMap State) (runID : String) :
    GoMap State × Option GoError :=
  (store.erase runID, none)

/-- Association-list read: Go map lookup for the graph's maps (keys are
unique by construction through `alistSet`). -/
def alistGet {β : Type} (m : List (String × β)) (k : String) : Option β :=
  match m.find? (fun p => p.1 = k) with
  | some p => some p.2
  | none => none

/-- Association-list write: Go map assignment (update in place or append). -/
def alistSet {β : Type} (m : List (String × β)) (k : String) (v : β) :
    List (String × β) :=
  match m with
  | [] => [(k, v)]
  | p :: rest => if p.1 = k then (k, v) :: rest else p :: alistSet rest k v

/-- `TransitionPredicate`: `func(state State) bool`.  It reads the heap, so
the current `World` is passed alongside the state. -/
def TransitionPredicate (α : Type) : Type := World α → State → Bool

/-- `Edge`: directed transition; a nil predicate is unconditional. -/
structure Edge (α : Type) where
  From : String
  To : String
  Predicate : Option (TransitionPredicate α)

/-- `StateNode.Execute(ctx, state) (State, error)`: a node may mutate the
heap, and returns a new state and an optional error. -/
def StateNode (α : Type) : Type := World α → State → World α × State × Option GoError

/-- `edge.Predicate == nil || edge.Predicate(state)`. -/
def predHolds {α : Type} (w : World α) (st : State) :
    Option (TransitionPredicate α) → Bool
  | none => true
  | some p => p w st

/-- Cancellation oracle: the value of `ctx.Err() != nil` at the top-of-loop
check performed when `iterations` has the given value. -/
def Ctx : Type := Int → Bool

/-- The never-cancelled context. -/
def Ctx.background : Ctx := fun _ => false

/-- `stateGraph`: the concrete graph.  `checkpointStore` is `some ()` when a
store is bound (nil interface otherwise); its contents live in the execution
context (`ExecState.store`). -/
structure Graph (α : Type) where
  name : String
  nodes : List (String × StateNode α)
  edges : List (String × List (Edge α))
  entryPoint : String
  exitPoints : List (String × Bool)
  maxIterations : Int
  checkpointStore : Option Unit
  checkpointInterval : Int
  preserverCheckpoints : Bool

/-- `g.exitPoints[current]` (map read with Go's zero-value default). -/
def Graph.isExitPoint {α : Type} (g : Graph α) (node : String) : Bool :=
  match alistGet g.exitPoints node with
  | some b => b
  | none => false

/-- `AddNode`. -/
def Graph.AddNode {α : Type} (g : Graph α) (name : String)
    (node : Option (StateNode α)) : Except GoError (Graph α) :=
  if name = "" then Except.error GoError.emptyNodeName
  else match node with
  | none => Except.error GoError.nilNode
  | some node =>
    match alistGet g.nodes name with
    | some _ => Except.error (GoError.duplicateNode name)
    | none => Except.ok { g with nodes := alistSet g.nodes name node }

/-- `AddEdge`. -/
def Graph.AddEdge {α : Type} (g : Graph α) (fromNode toNode : String)
    (predicate : Option (TransitionPredicate α)) : Except GoError (Graph α) :=
  if fromNode = "" then Except.error GoError.emptyFromNode
  else if toNode = "" then Except.error GoError.emptyToNode
  else if (alistGet g.nodes fromNode).isNone then
    Except.error (GoError.missingFromNode fromNode)
  else if (alistGet g.nodes toNode).isNone then
    Except.error (GoError.missingToNode toNode)
  else
    let edge : Edge α := { From := fromNode, To := toNode, Predicate := predicate }
    let old := match alistGet g.edges fromNode with
      | some es => es
      | none => []
    Except.ok { g with edges := alistSet g.edges fromNode (old ++ [edge]) }

/-- `SetEntryPoint`. -/
def Graph.SetEntryPoint {α : Type} (g : Graph α) (node : String) :
    Except GoError (Graph α) :=
  if node = "" then Except.error GoError.emptyEntryPoint
  else if g.entryPoint ≠ "" then
    Except.error (GoError.entryPointAlreadySet g.entryPoint)
  else if (alistGet g.nodes node).isNone then
    Except.error (GoError.missingEntryNode node)
  else Except.ok { g with entryPoint := node }

/-- `SetExitPoint`. -/
def Graph.SetExitPoint {α : Type} (g : Graph α) (node : String) :
    Except GoError (Graph α) :=
  if node = "" then Except.error GoError.emptyExitPoint
  else if (alistGet g.nodes node).isNone then
    Except.error (GoError.missingExitNode node)
  else Except.ok { g with exitPoints := alistSet g.exitPoints node true }

/-- `Validate`.  Go iterates the exit-point map in unspecified order; the
embedding reports the first missing exit point in list order. -/
def Graph.Validate {α : Type} (g : Graph α) : Option GoError :=
  if g.nodes.length = 0 then some GoError.graphHasNoNodes
  else if g.entryPoint = "" then some GoError.entryPointNotSet
  else if (alistGet g.nodes g.entryPoint).isNone then
    some (GoError.entryPointMissing g.entryPoint)
  else if g.exitPoints.length = 0 then some GoError.noExitPointsSet
  else
    match g.exitPoints.find? (fun p => (alistGet g.nodes p.1).isNone) with
    | some p => some (GoError.exitPointMissing p.1)
    | none => none

/-- Observer events relevant to the interpreter, with the metadata the code
puts in `Event.Data`. -/
inductive GEvent where
  | graphStart (entryPoint : String) (runID : String) (exitPoints : Nat)
  | cycleDetected (node : String) (visitCount : Int) (iteration : Int)
      (pathLength : Nat)
  | nodeStart (node : String) (iteration : Int)
  | nodeComplete (node : String) (iteration : Int) (isError : Bool)
  | checkpointSave (node : String) (runID : String)
  | graphComplete (exitPoint : String) (iterations : Int) (pathLength : Nat)
  | edgeEvaluate (fromNode toNode : String) (index : Nat) (hasPredicate : Bool)
  | edgeTransition (fromNode toNode : String) (index : Nat)
  | graphCompleteResume (exitPoint : String) (iterations : Int)
  | edgeEvaluateResume (fromNode toNode : String) (result : Bool)
  | edgeTransitionResume (fromNode toNode : String)
  | checkpointLoad (node : String) (runID : String)
  | checkpointResume (checkpointNode resumeNode : String) (runID : String)
deriving DecidableEq

/-- Threaded execution context: the heap/clock, the contents of the graph's
checkpoint store, logs of the `Save` and `Delete` calls made on it (by the
runID passed), and the emitted event trace. -/
structure ExecState (α : Type) where
  world : World α
  store : GoMap State
  saves : List String
  deletes : List String
  trace : List GEvent

/-- Result of `Execute`/`Resume`: Go returns `(State, error)`; the execution
context, the visited `path` and final `iterations` of the loop are exposed
for specification purposes (Go keeps them in the loop and inside
`ExecutionError`). -/
structure ExecResult (α : Type) where
  es : ExecState α
  state : State
  error : Option GoError
  path : List String
  iterations : Int

/-- The edge-evaluation loop of `Execute` (`graph.go` lines 405-435):
evaluate edges in insertion order, emit `EdgeEvaluate` for each edge looked
at, and break on the first edge whose predicate is nil or true, emitting
`EdgeTransition`.  Returns the emitted events and `nextNode` (`""` when no
edge matched). -/
def scanEdges {α : Type} (w : World α) (st : State) :
    List (Edge α) → Nat → List GEvent × String
  | [], _ => ([], "")
  | e :: rest, i =>
    let ev := GEvent.edgeEvaluate e.From e.To i e.Predicate.isSome
    if predHolds w st e.Predicate then
      ([ev, GEvent.edgeTransition e.From e.To i], e.To)
    else
      let r := scanEdges w st rest (i + 1)
      (ev :: r.1, r.2)

/-- The traversal loop of `Execute` (`graph.go` lines 274-447), one Lean
recursion step per Go loop iteration. -/
def execLoop {α : Type} (g : Graph α) (ctx : Ctx) (current : String)
    (st : State) (iterations : Int) (visited : String → Int)
    (path : List String) (es : ExecState α) : ExecResult α :=
  if ctx iterations then
    { es := es, state := st,
      error := some (GoError.execution current st path
        (GoError.executionCancelled GoError.canceled)),
      path := path, iterations := iterations }
  else
    let iters := iterations + 1
    if hmax : iters > g.maxIterations then
      { es := es, state := st,
        error := some (GoError.execution current st path
          (GoError.maxIterationsExceeded g.maxIterations)),
        path := path, iterations := iters }
    else
      let visited2 : String → Int := fun n =>
        if n = current then visited n + 1 else visited n
      let path2 := path ++ [current]
      let es := if visited2 current > 1 then
          { es with trace := es.trace ++
              [GEvent.cycleDetected current (visited2 current) iters path2.length] }
        else es
      match alistGet g.nodes current with
      | none =>
        { es := es, state := st,
          error := some (GoError.execution current st path2
            (GoError.nodeNotFound current)),
          path := path2, iterations := iters }
      | some node =>
        let es := { es with trace := es.trace ++ [GEvent.nodeStart current iters] }
        let r := node es.world st
        let es := { es with
          world := r.1,
          trace := es.trace ++ [GEvent.nodeComplete current iters r.2.2.isSome] }
        match r.2.2 with
        | some cause =>
          { es := es, state := st,
            error := some (GoError.execution current st path2
              (GoError.nodeExecutionFailed cause)),
            path := path2, iterations := iters }
        | none =>
          let upd := State.SetCheckpointNode r.2.1 es.world current
          let es := { es with world := upd.1 }
          let st2 := upd.2
          let afterSave : Except (ExecResult α) (ExecState α) :=
            if g.checkpointInterval > 0 ∧ iters % g.checkpointInterval = 0 then
              match MemStore.Save es.store st2 with
              | (_, some saveErr) =>
                Except.error
                  { es := es, state := st2,
                    error := some (GoError.execution current st2 path2
                      (GoError.checkpointSaveFailed saveErr)),
                    path := path2, iterations := iters }
              | (store2, none) =>
                Except.ok { es with
                  store := store2,
                  saves := es.saves ++ [st2.runID],
                  trace := es.trace ++ [GEvent.checkpointSave current st2.runID] }
            else Except.ok es
          match afterSave with
          | Except.error failed => failed
          | Except.ok es =>
            if g.isExitPoint current then
              let es := { es with trace := es.trace ++
                  [GEvent.graphComplete current iters path2.length] }
              let es :=
                if ¬ g.preserverCheckpoints ∧ g.checkpointInterval > 0 then
                  { es with
                    store := (MemStore.Delete es.store st2.runID).1,
                    deletes := es.deletes ++ [st2.runID] }
                else es
              { es := es, state := st2, error := none,
                path := path2, iterations := iters }
            else
              match alistGet g.edges current with
              | none =>
                { es := es, state := st2,
                  error := some (GoError.execution current st2 path2
                    (GoError.noOutgoingEdges current)),
                  path := path2, iterations := iters }
              | some edges =>
                let scan := scanEdges es.world st2 edges 0
                let es := { es with trace := es.trace ++ scan.1 }
                if scan.2 = "" then
                  { es := es, state := st2,
                    error := some (GoError.execution current st2 path2
                      (GoError.noValidTransition current)),
                    path := path2, iterations := iters }
                else
                  execLoop g ctx scan.2 st2 iters visited2 path2 es
termination_by (g.maxIterations + 1 - iterations).toNat
decreasing_by
  simp_wf
  omega

/-- `Execute` (`graph.go` lines 252-448): validate, emit `GraphStart`, run
the traversal loop from the entry point. -/
def Graph.Execute {α : Type} (g : Graph α) (ctx : Ctx) (initialState : State)
    (es : ExecState α) : ExecResult α :=
  match g.Validate with
  | some err =>
    { es := es, state := initialState,
      error := some (GoError.validationFailed err), path := [], iterations := 0 }
  | none =>
    let es := { es with trace := es.trace ++
        [GEvent.graphStart g.entryPoint initialState.runID g.exitPoints.length] }
    execLoop g ctx g.entryPoint initialState 0 (fun _ => 0) [] es

/-- The edge-evaluation loop of `executeFrom`
(`_context/phase-06-checkpointing.md`): unlike `Execute`'s loop it evaluates
every edge (no break), emits `EdgeEvaluate` with the predicate result, and
keeps the first matching edge's target in `nextNode`.  `acc` is the value of
`nextNode` so far. -/
def scanEdgesResume {α : Type} (w : World α) (st : State) :
    List (Edge α) → String → List GEvent × String
  | [], acc => ([], acc)
  | e :: rest, acc =>
    let result := predHolds w st e.Predicate
    let acc2 := if result ∧ acc = "" then e.To else acc
    let r := scanEdgesResume w st rest acc2
    (GEvent.edgeEvaluateResume e.From e.To result :: r.1, r.2)

/-- The traversal loop of `executeFrom`
(`_context/phase-06-checkpointing.md`, Step 5).  Structurally the same loop
as `execLoop` but with the phase-06 document's call sites: the context
cancellation, node-not-found, no-outgoing-edges and no-valid-transition
errors come from different `fmt.Errorf` calls, a node error is stored in
`ExecutionError.Err` unwrapped, `GraphComplete` carries no path length, and
the edge loop is `scanEdgesResume`. -/
def executeFromLoop {α : Type} (g : Graph α) (ctx : Ctx) (current : String)
    (st : State) (iterations : Int) (visited : String → Int)
    (path : List String) (es : ExecState α) : ExecResult α :=
  if ctx iterations then
    { es := es, state := st,
      error := some (GoError.execution current st path
        (GoError.contextCancelled GoError.canceled)),
      path := path, iterations := iterations }
  else
    let iters := iterations + 1
    if hmax : iters > g.maxIterations then
      { es := es, state := st,
        error := some (GoError.execution current st path
          (GoError.maxIterationsExceeded g.maxIterations)),
        path := path, iterations := iters }
    else
      let visited2 : String → Int := fun n =>
        if n = current then visited n + 1 else visited n
      let path2 := path ++ [current]
      let es := if visited2 current > 1 then
          { es with trace := es.trace ++
              [GEvent.cycleDetected current (visited2 current) iters path2.length] }
        else es
      match alistGet g.nodes current with
      | none =>
        { es := es, state := st,
          error := some (GoError.execution current st path2
            (GoError.nodeNotFoundFrom current)),
          path := path2, iterations := iters }
      | some node =>
        let es := { es with trace := es.trace ++ [GEvent.nodeStart current iters] }
        let r := node es.world st
        let es := { es with
          world := r.1,
          trace := es.trace ++ [GEvent.nodeComplete current iters r.2.2.isSome] }
        match r.2.2 with
        | some cause =>
          { es := es, state := st,
            error := some (GoError.execution current st path2 cause),
            path := path2, iterations := iters }
        | none =>
          let upd := State.SetCheckpointNode r.2.1 es.world current
          let es := { es with world := upd.1 }
          let st2 := upd.2
          let afterSave : Except (ExecResult α) (ExecState α) :=
            if g.checkpointInterval > 0 ∧ iters % g.checkpointInterval = 0 then
              match MemStore.Save es.store st2 with
              | (_, some saveErr) =>
                Except.error
                  { es := es, state := st2,
                    error := some (GoError.execution current st2 path2
                      (GoError.checkpointSaveFailed saveErr)),
                    path := path2, iterations := iters }
              | (store2, none) =>
                Except.ok { es with
                  store := store2,
                  saves := es.saves ++ [st2.runID],
                  trace := es.trace ++ [GEvent.checkpointSave current st2.runID] }
            else Except.ok es
          match afterSave with
          | Except.error failed => failed
          | Except.ok es =>
            if g.isExitPoint current then
              let es := { es with trace := es.trace ++
                  [GEvent.graphCompleteResume current iters] }
              let es :=
                if ¬ g.preserverCheckpoints ∧ g.checkpointInterval > 0 then
                  { es with
                    store := (MemStore.Delete es.store st2.runID).1,
                    deletes := es.deletes ++ [st2.runID] }
                else es
              { es := es, state := st2, error := none,
                path := path2, iterations := iters }
            else
              match alistGet g.edges current with
              | none =>
                { es := es, state := st2,
                  error := some (GoError.execution current st2 path2
                    (GoError.noOutgoingEdgesFrom current)),
                  path := path2, iterations := iters }
              | some edges =>
                let scan := scanEdgesResume es.world st2 edges ""
                let es := { es with trace := es.trace ++ scan.1 }
                if scan.2 = "" then
                  { es := es, state := st2,
                    error := some (GoError.execution current st2 path2
                      (GoError.noValidEdgeTransition current)),
                    path := path2, iterations := iters }
                else
                  let es := { es with trace := es.trace ++
                      [GEvent.edgeTransitionResume current scan.2] }
                  executeFromLoop g ctx scan.2 st2 iters visited2 path2 es
termination_by (g.maxIterations + 1 - iterations).toNat
decreasing_by
  simp_wf
  omega

/-- `executeFrom` (`_context/phase-06-checkpointing.md`): validate (returning
`State{}` and the unwrapped validation error on failure), then run the
resume traversal loop from `startNode`. -/
def Graph.executeFrom {α : Type} (g : Graph α) (ctx : Ctx) (startNode : String)
    (initialState : State) (es : ExecState α) : ExecResult α :=
  match g.Validate with
  | some err =>
    { es := es, state := State.goZero, error := some err,
      path := [], iterations := 0 }
  | none =>
    executeFromLoop g ctx startNode initialState 0 (fun _ => 0) [] es

/-- The edge loop of `findNextNode`: return the target of the first edge
whose predicate is nil or true. -/
def findNextLoop {α : Type} (w : World α) (st : State) :
    List (Edge α) → Option String
  | [] => none
  | e :: rest =>
    if predHolds w st e.Predicate then some e.To else findNextLoop w st rest

/-- `findNextNode` (`_context/phase-06-checkpointing.md`, Step 5): with no
outgoing edges, an exit-point checkpoint node means execution was already
complete; otherwise evaluate the outgoing edges of the checkpoint node
against the loaded state, first match wins. -/
def Graph.findNextNode {α : Type} (g : Graph α) (w : World α)
    (fromNode : String) (st : State) : Except GoError String :=
  match alistGet g.edges fromNode with
  | none =>
    if g.isExitPoint fromNode then
      Except.error GoError.checkpointAtExitPoint
    else
      Except.error (GoError.noOutgoingFromCheckpoint fromNode)
  | some edges =>
    match findNextLoop w st edges with
    | some toNode => Except.ok toNode
    | none => Except.error (GoError.noValidEdgeFromCheckpoint fromNode)

/-- `Resume` (`_context/phase-06-checkpointing.md`, Step 5): requires a bound
checkpoint store, loads the checkpoint by runID from the graph's store
(in-memory reference semantics), emits `CheckpointLoad`, finds the node after
the checkpoint, emits `CheckpointResume`, and executes from there. -/
def Graph.Resume {α : Type} (g : Graph α) (ctx : Ctx) (runID : String)
    (es : ExecState α) : ExecResult α :=
  match g.checkpointStore with
  | none =>
    { es := es, state := State.goZero,
      error := some GoError.checkpointingNotEnabled, path := [], iterations := 0 }
  | some _ =>
    match MemStore.Load es.store runID with
    | Except.error e =>
      { es := es, state := State.goZero,
        error := some (GoError.failedToLoadCheckpoint e),
        path := [], iterations := 0 }
    | Except.ok st =>
      let es := { es with trace := es.trace ++
          [GEvent.checkpointLoad st.checkpointNode runID] }
      match g.findNextNode es.world st.checkpointNode st with
      | Except.error e =>
        { es := es, state := State.goZero,
          error := some (GoError.failedToFindNextNode e),
          path := [], iterations := 0 }
      | Except.ok nextNode =>
        let es := { es with trace := es.trace ++
            [GEvent.checkpointResume st.checkpointNode nextNode runID] }
        g.executeFrom ctx nextNode st es

/-- `CheckpointConfig` (`pkg/config`). -/
structure CheckpointConfig where
  Store : String
  Interval : Int
  Preserve : Bool

/-- `GraphConfig` (`pkg/config`). -/
structure GraphConfig where
  Name : String
  Observer : String
  MaxIterations : Int
  Checkpoint : CheckpointConfig

/-- `observability.GetObserver` against a snapshot of the process-wide
observer registry (observer instances are opaque here). -/
def GetObserver (registry : GoMap Unit) (name : String) : Except GoError Unit :=
  match registry.lookup name with
  | some o => Except.ok o
  | none => Except.error (GoError.unknownObserver name)

/-- The observer registry's initial contents (`"noop"` and `"slog"`). -/
def defaultObservers : GoMap Unit :=
  fun n => if n = "noop" ∨ n = "slog" then some () else none

/-- `GetCheckpointStore` against a snapshot of the process-wide checkpoint
store registry. -/
def GetCheckpointStore (registry : GoMap Unit) (name : String) :
    Except GoError Unit :=
  match registry.lookup name with
  | some s => Except.ok s
  | none => Except.error (GoError.unknownCheckpointStore name)

/-- The checkpoint-store registry's initial contents (`"memory"`). -/
def defaultCheckpointStores : GoMap Unit :=
  fun n => if n = "memory" then some () else none

/-- `NewGraph` (`graph.go` lines 86-111): resolve the observer; resolve the
checkpoint store only when `cfg.Checkpoint.Interval > 0` (the store stays
nil otherwise); initialize empty node/edge/exit collections.  The registries
are passed as snapshots of the process-wide mutable registries. -/
def NewGraph (α : Type) (observerRegistry storeRegistry : GoMap Unit)
    (cfg : GraphConfig) : Except GoError (Graph α) :=
  match GetObserver observerRegistry cfg.Observer with
  | Except.error err => Except.error (GoError.failedToResolveObserver err)
  | Except.ok _observer =>
    let storeResult : Except GoError (Option Unit) :=
      if cfg.Checkpoint.Interval > 0 then
        match GetCheckpointStore storeRegistry cfg.Checkpoint.Store with
        | Except.error err =>
          Except.error (GoError.failedToResolveCheckpointStore err)
        | Except.ok s => Except.ok (some s)
      else Except.ok none
    match storeResult with
    | Except.error err => Except.error err
    | Except.ok checkpointStore =>
      Except.ok { name := cfg.Name, nodes := [], edges := [],
                  entryPoint := "", exitPoints := [],
                  maxIterations := cfg.MaxIterations,
                  checkpointStore := checkpointStore,
                  checkpointInterval := cfg.Checkpoint.Interval,
                  preserverCheckpoints := cfg.Checkpoint.Preserve }

/-- The number of node executions recorded in a trace (one `NodeStart` event
is emitted immediately before each `node.Execute` call). -/
def countNodeExecs (tr : List GEvent) : Nat :=
  (tr.filter (fun e => match e with
    | GEvent.nodeStart _ _ => true
    | _ => false)).length

/-! Concrete instances used to evaluate the definitions on closed inputs. -/

/-- A small heap with two live empty cells. -/
def wZero : World Nat := { cells := fun _ => GoMap.empty, size := 2, clock := 0 }

/-- A node that succeeds and returns its input state. -/
def nodeOkW : StateNode Nat := fun w s => (w, s, none)

/-- A node that fails with an external error. -/
def nodeFailW : StateNode Nat := fun w s => (w, s, some (GoError.external 0 "boom"))

/-- A State whose last checkpoint was node `A`. -/
def stW : State :=
  { data := 0, observer := 0, runID := "r", checkpointNode := "A", timestamp := 0 }

/-- A second State over the other heap cell. -/
def stW2 : State :=
  { data := 1, observer := 0, runID := "r2", checkpointNode := "", timestamp := 0 }

/-- An execution context whose store holds the checkpoint of run `r`. -/
def esW : ExecState Nat :=
  { world := wZero, store := GoMap.assign GoMap.empty "r" stW,
    saves := [], deletes := [], trace := [] }

/-- An execution context with an empty store. -/
def esEmptyW : ExecState Nat :=
  { world := wZero, store := GoMap.empty, saves := [], deletes := [],
    trace := [] }

/-- Graph for the Resume counterexample: checkpoint node `A` is an exit point
AND has an outgoing unconditional edge to exit point `B`. -/
def gResumeW : Graph Nat :=
  { name := "g", nodes := [("A", nodeOkW), ("B", nodeOkW)],
    edges := [("A", [{ From := "A", To := "B", Predicate := none }])],
    entryPoint := "A", exitPoints := [("A", true), ("B", true)],
    maxIterations := 10, checkpointStore := some (),
    checkpointInterval := 1, preserverCheckpoints := true }

/-- Graph whose exit point `A` has no outgoing edges, checkpointing bound. -/
def gExitNoEdgesW : Graph Nat :=
  { name := "g", nodes := [("A", nodeOkW)], edges := [],
    entryPoint := "A", exitPoints := [("A", true)],
    maxIterations := 10, checkpointStore := some (),
    checkpointInterval := 1, preserverCheckpoints := true }

/-- A single-node graph with checkpointing disabled. -/
def gTrivW : Graph Nat :=
  { name := "g", nodes := [("A", nodeOkW)], edges := [],
    entryPoint := "A", exitPoints := [("A", true)],
    maxIterations := 5, checkpointStore := none,
    checkpointInterval := 0, preserverCheckpoints := false }

/-- A two-node graph with one unconditional edge `A -> B`, exit `B`. -/
def gEdgeW : Graph Nat :=
  { name := "g", nodes := [("A", nodeOkW), ("B", nodeOkW)],
    edges := [("A", [{ From := "A", To := "B", Predicate := none }])],
    entryPoint := "A", exitPoints := [("B", true)],
    maxIterations := 5, checkpointStore := none,
    checkpointInterval := 0, preserverCheckpoints := false }

/-- A graph whose only node fails. -/
def gFailW : Graph Nat :=
  { name := "g", nodes := [("A", nodeFailW)], edges := [],
    entryPoint := "A", exitPoints := [("A", true)],
    maxIterations := 5, checkpointStore := none,
    checkpointInterval := 0, preserverCheckpoints := false }

/-- A graph configuration with checkpointing disabled and an unregistered
(empty) store name. -/
def cfgW : GraphConfig :=
  { Name := "g", Observer := "noop", MaxIterations := 5,
    Checkpoint := { Store := "", Interval := 0, Preserve := false } }

/-! Theorems.  First the `State` and checkpoint-store claims, then helper
lemmas about the traversal loops, then the graph claims. -/

/-- C6: For every State `s`, key `k` and value `v` (over any live heap
reference for `s.data`), `s.Set(k, v).Get(k)` returns `(v, true)`, and the
receiver's data mapping — the heap cell `s.data` — is unchanged by the call
(`Set` mutates only the freshly cloned cell). -/
theorem set_get_and_receiver_unchanged {α : Type} (w : World α) (s : State)
    (k : String) (v : α) (h : w.ValidRef s.data) :
    (s.Set w k v).2.Get (s.Set w k v).1 k = (some v, true)
    ∧ (s.Set w k v).1.readMap s.data = w.readMap s.data := by
  have hl : s.data < w.size := h
  have hne : s.data ≠ w.size := Nat.ne_of_lt h
  constructor
  · simp [State.Set, State.Clone, State.Get, World.allocMap, World.writeMap,
      World.readMap, mapsClone, GoMap.assign, GoMap.lookup]
  · simp only [State.Set, State.Clone, World.allocMap, World.writeMap,
      World.readMap, mapsClone, GoMap.assign, GoMap.lookup]
    split_ifs <;> first | rfl | omega

/-- C7: For all States `s1`, `s2` (with live data references) and every key
`k`: `s1.Merge(s2).Get(k)` equals `s2.Get(k)` when `k` is present in `s2`'s
data and `s1.Get(k)` otherwise, and neither receiver's data cell is modified
by the call. -/
theorem merge_get_and_receivers_unchanged {α : Type} (w : World α)
    (s1 s2 : State) (k : String) (h1 : w.ValidRef s1.data)
    (h2 : w.ValidRef s2.data) :
    ((s1.Merge w s2).2.Get (s1.Merge w s2).1 k =
      if ((w.readMap s2.data).lookup k).isSome then s2.Get w k else s1.Get w k)
    ∧ (s1.Merge w s2).1.readMap s1.data = w.readMap s1.data
    ∧ (s1.Merge w s2).1.readMap s2.data = w.readMap s2.data := by
  have hl1 : s1.data < w.size := h1
  have hl2 : s2.data < w.size := h2
  have hne1 : s1.data ≠ w.size := Nat.ne_of_lt h1
  have hne2 : s2.data ≠ w.size := Nat.ne_of_lt h2
  refine ⟨?_, ?_, ?_⟩
  · simp only [State.Merge, State.Clone, State.Get, World.allocMap,
      World.writeMap, World.readMap, mapsClone, mapsCopy, GoMap.lookup,
      GoMap.empty]
    split_ifs <;>
      first
        | omega
        | (cases hcase : w.cells s2.data k <;> simp_all [mapsCopy, GoMap.empty])
  · simp only [State.Merge, State.Clone, World.allocMap, World.writeMap,
      World.readMap, mapsClone, GoMap.lookup]
    split_ifs <;> first | rfl | omega
  · simp only [State.Merge, State.Clone, World.allocMap, World.writeMap,
      World.readMap, mapsClone, GoMap.lookup]
    split_ifs <;> first | rfl | omega

/-- C8: `Clone`, `Set` and `Merge` carry `runID`, `observer`,
`checkpointNode` and `timestamp` over from the receiver unchanged; among the
State operations only `SetCheckpointNode` changes `checkpointNode` (to the
given name) and `timestamp` (to `time.Now()`, the world's clock), leaving
`runID` and `observer` unchanged.  (`Get` and `Checkpoint` return no State;
`New` constructs a fresh one.) -/
theorem state_metadata_frame {α : Type} (w : World α) (s other : State)
    (k : String) (v : α) (node : String) :
    ((s.Clone w).2.runID = s.runID ∧ (s.Clone w).2.observer = s.observer
      ∧ (s.Clone w).2.checkpointNode = s.checkpointNode
      ∧ (s.Clone w).2.timestamp = s.timestamp)
    ∧ ((s.Set w k v).2.runID = s.runID ∧ (s.Set w k v).2.observer = s.observer
      ∧ (s.Set w k v).2.checkpointNode = s.checkpointNode
      ∧ (s.Set w k v).2.timestamp = s.timestamp)
    ∧ ((s.Merge w other).2.runID = s.runID
      ∧ (s.Merge w other).2.observer = s.observer
      ∧ (s.Merge w other).2.checkpointNode = s.checkpointNode
      ∧ (s.Merge w other).2.timestamp = s.timestamp)
    ∧ ((s.SetCheckpointNode w node).2.runID = s.runID
      ∧ (s.SetCheckpointNode w node).2.observer = s.observer
      ∧ (s.SetCheckpointNode w node).2.checkpointNode = node
      ∧ (s.SetCheckpointNode w node).2.timestamp = w.clock) := by
  refine ⟨⟨rfl, rfl, rfl, rfl⟩, ⟨rfl, rfl, rfl, rfl⟩, ⟨rfl, rfl, rfl, rfl⟩,
    ⟨rfl, rfl, rfl, rfl⟩⟩

/-- C9: Saving a State to the in-memory checkpoint store and loading by its
runID succeeds and returns a State whose `runID`, `checkpointNode`,
`timestamp` and `data` all equal those of the saved State (the store keeps
the State by value, keyed and overwritten by runID). -/
theorem save_load_roundtrip (store : GoMap State) (s : State) :
    ∃ loaded, MemStore.Load (MemStore.Save store s).1 s.RunID = Except.ok loaded
      ∧ loaded.runID = s.runID ∧ loaded.checkpointNode = s.checkpointNode
      ∧ loaded.timestamp = s.timestamp ∧ loaded.data = s.data := by
  refine ⟨s, ?_, rfl, rfl, rfl, rfl⟩
  simp [MemStore.Load, MemStore.Save, GoMap.assign, GoMap.lookup, State.RunID]

/-- Helper: the last element of `l ++ [a]` is `a`. -/
theorem getLast?_append_singleton {β : Type} (l : List β) (a : β) :
    (l ++ [a]).getLast? = some a := by
  rw [List.getLast?_append_cons]
  rfl

set_option maxHeartbeats 2000000 in
/-- Helper invariant: whenever the traversal loop of `Execute` returns
without error, the last element of the visited path is an exit point (the
only success return is in the exit-point branch, which has just appended
`current` to the path). -/
theorem execLoop_success_exit {α : Type} (g : Graph α) (ctx : Ctx)
    (current : String) (st : State) (iterations : Int) (visited : String → Int)
    (path : List String) (es : ExecState α) :
    (execLoop g ctx current st iterations visited path es).error = none →
    ∃ last, (execLoop g ctx current st iterations visited path es).path.getLast?
        = some last
      ∧ g.isExitPoint last = true := by
  refine execLoop.induct g ctx
    (fun current st iterations visited path es =>
      (execLoop g ctx current st iterations visited path es).error = none →
      ∃ last,
        (execLoop g ctx current st iterations visited path es).path.getLast?
            = some last
          ∧ g.isExitPoint last = true)
    ?_ ?_ ?_ ?_ ?_ ?_ ?_ ?_ ?_ current st iterations visited path es
  · intro current st iterations visited path es h1
    rw [execLoop.eq_def]
    simp only [h1, if_true]
    intro hc
    exact absurd hc (by simp)
  · intro current st iterations visited path es h1 iters h2
    rw [execLoop.eq_def]
    simp only [if_neg h1, dif_pos h2]
    intro hc
    exact absurd hc (by simp)
  · intro current st iterations visited path es h1 iters h2 h3
    rw [execLoop.eq_def]
    simp only [if_neg h1, dif_neg h2, h3]
    intro hc
    exact absurd hc (by simp)
  · intro current st iterations visited path es
    dsimp only
    intro h1 h2 node h3 cause h4
    simp only [eq_self_iff_true, dite_eq_ite, if_true] at h4
    rw [execLoop.eq_def]
    simp only [if_neg h1, dif_neg h2, h3, eq_self_iff_true, dite_eq_ite, if_true,
      h4]
    intro hc
    exact absurd hc (by simp)
  · intro current st iterations visited path es
    dsimp only
    intro h1 h2 node h3 h4 failed h5
    simp only [MemStore.Save] at h5
    split at h5 <;> exact absurd h5 (by simp)
  · intro current st iterations visited path es
    dsimp only
    intro h1 h2 node h3 h4 es5 h5 h6
    simp only [eq_self_iff_true, dite_eq_ite, if_true] at h4
    rw [execLoop.eq_def]
    simp only [if_neg h1, dif_neg h2, h3, eq_self_iff_true, dite_eq_ite, if_true,
      h4, MemStore.Save, h6]
    by_cases hck : g.checkpointInterval > 0 ∧ (iterations + 1) % g.checkpointInterval = 0
    · simp only [if_pos hck]
      intro _
      exact ⟨current, getLast?_append_singleton path current, h6⟩
    · simp only [if_neg hck]
      intro _
      exact ⟨current, getLast?_append_singleton path current, h6⟩
  · intro current st iterations visited path es
    dsimp only
    intro h1 h2 node h3 h4 es5 h5 h6 h7
    simp only [eq_self_iff_true, dite_eq_ite, if_true] at h4
    rw [execLoop.eq_def]
    simp only [if_neg h1, dif_neg h2, h3, eq_self_iff_true, dite_eq_ite, if_true,
      h4, MemStore.Save, if_neg h6, h7]
    by_cases hck : g.checkpointInterval > 0 ∧ (iterations + 1) % g.checkpointInterval = 0
    · simp only [if_pos hck]
      intro hc
      exact absurd hc (by simp)
    · simp only [if_neg hck]
      intro hc
      exact absurd hc (by simp)
  · intro current st iterations visited path es
    dsimp only
    intro h1 h2 node h3 h4 es5 h5 h6 edges h7 h8
    simp only [eq_self_iff_true, dite_eq_ite, if_true] at h4
    simp only [eq_self_iff_true, dite_eq_ite, if_true, MemStore.Save, h4] at h5 h8
    rw [execLoop.eq_def]
    simp only [if_neg h1, dif_neg h2, h3, eq_self_iff_true, dite_eq_ite, if_true,
      h4, MemStore.Save, if_neg h6, h7]
    by_cases hck : g.checkpointInterval > 0 ∧ (iterations + 1) % g.checkpointInterval = 0
    · simp only [if_pos hck] at h5 ⊢
      injection h5 with h5
      subst h5
      simp only [if_pos h8]
      intro hc
      exact absurd hc (by simp)
    · simp only [if_neg hck] at h5 ⊢
      injection h5 with h5
      subst h5
      simp only [if_pos h8]
      intro hc
      exact absurd hc (by simp)
  · intro current st iterations visited path es
    dsimp only
    intro h1 h2 node h3 h4 es5 h5 h6 edges h7 h8 ih
    simp only [eq_self_iff_true, dite_eq_ite, if_true] at h4
    simp only [eq_self_iff_true, dite_eq_ite, if_true, MemStore.Save, h4] at h5 h8 ih
    rw [execLoop.eq_def]
    simp only [if_neg h1, dif_neg h2, h3, eq_self_iff_true, dite_eq_ite, if_true,
      h4, MemStore.Save, if_neg h6, h7]
    by_cases hck : g.checkpointInterval > 0 ∧ (iterations + 1) % g.checkpointInterval = 0
    · simp only [if_pos hck] at h5 ⊢
      injection h5 with h5
      subst h5
      simp only [if_neg h8]
      try dsimp only at ih ⊢
      exact ih
    · simp only [if_neg hck] at h5 ⊢
      injection h5 with h5
      subst h5
      simp only [if_neg h8]
      try dsimp only at ih ⊢
      exact ih

/-- C2: For every graph and initial state, if `Execute` returns without
error then the last element of the visited path is a member of the graph's
exit-point set.  (A graph failing validation returns an error, so every
successful run is of a valid graph.) -/
theorem execute_success_ends_at_exit_point {α : Type} (g : Graph α) (ctx : Ctx)
    (initialState : State) (es : ExecState α)
    (h : (g.Execute ctx initialState es).error = none) :
    ∃ last, (g.Execute ctx initialState es).path.getLast? = some last
      ∧ g.isExitPoint last = true := by
  revert h
  unfold Graph.Execute
  match hv : g.Validate with
  | some err => intro h; exact absurd h (by simp)
  | none =>
    dsimp only
    exact execLoop_success_exit g ctx g.entryPoint initialState 0
      (fun _ => 0) [] _

/-- Helper: node-execution counts add over concatenated traces. -/
theorem countNodeExecs_append (a b : List GEvent) :
    countNodeExecs (a ++ b) = countNodeExecs a + countNodeExecs b := by
  simp [countNodeExecs, List.filter_append]

/-- Helper: the edge-evaluation loop emits no `NodeStart` events. -/
theorem countNodeExecs_scanEdges {α : Type} (w : World α) (st : State)
    (edges : List (Edge α)) (i : Nat) :
    countNodeExecs (scanEdges w st edges i).1 = 0 := by
  induction edges generalizing i with
  | nil => rfl
  | cons e rest ih =>
    rw [scanEdges]
    split
    · simp [countNodeExecs]
    · simp only [countNodeExecs, List.filter] at ih ⊢
      simpa using ih (i + 1)

/-- Helper: push the `trace` projection through an `if`. -/
theorem ite_trace {α : Type} (c : Prop) [Decidable c] (a b : ExecState α) :
    (if c then a else b).trace = if c then a.trace else b.trace := by
  split <;> rfl

example : countNodeExecs [GEvent.cycleDetected "a" 2 3 4] = 0 := by
  simp [countNodeExecs]

example (n : String) (i : Int) : countNodeExecs [GEvent.nodeStart n i] = 1 := by
  simp [countNodeExecs]

set_option maxHeartbeats 4000000 in
/-- Helper invariant for the iteration cap: entering the traversal loop with
counter `iterations`, at most `(maxIterations - iterations)` further node
executions happen (the counter is incremented once per loop iteration,
revisits included, before anything else), and exactly that many happen when
the loop ends with the max-iterations `ExecutionError`. -/
theorem execLoop_count {α : Type} (g : Graph α) (ctx : Ctx)
    (current : String) (st : State) (iterations : Int) (visited : String → Int)
    (path : List String) (es : ExecState α) :
    (countNodeExecs (execLoop g ctx current st iterations visited path es).es.trace
      ≤ countNodeExecs es.trace + (g.maxIterations - iterations).toNat)
    ∧ (∀ n s p,
        (execLoop g ctx current st iterations visited path es).error =
          some (GoError.execution n s p
            (GoError.maxIterationsExceeded g.maxIterations)) →
        countNodeExecs (execLoop g ctx current st iterations visited path es).es.trace
          = countNodeExecs es.trace + (g.maxIterations - iterations).toNat) := by
  refine execLoop.induct g ctx
    (fun current st iterations visited path es =>
      (countNodeExecs (execLoop g ctx current st iterations visited path es).es.trace
        ≤ countNodeExecs es.trace + (g.maxIterations - iterations).toNat)
      ∧ (∀ n s p,
          (execLoop g ctx current st iterations visited path es).error =
            some (GoError.execution n s p
              (GoError.maxIterationsExceeded g.maxIterations)) →
          countNodeExecs (execLoop g ctx current st iterations visited path es).es.trace
            = countNodeExecs es.trace + (g.maxIterations - iterations).toNat))
    ?_ ?_ ?_ ?_ ?_ ?_ ?_ ?_ ?_ current st iterations visited path es
  · intro current st iterations visited path es h1
    rw [execLoop.eq_def]
    simp only [h1, if_true]
    refine ⟨by omega, ?_⟩
    intro n s p hc
    exact absurd hc (by simp)
  · intro current st iterations visited path es h1 iters h2
    rw [execLoop.eq_def]
    simp only [if_neg h1, dif_pos h2]
    refine ⟨by omega, ?_⟩
    intro n s p hc
    simp only [Option.some.injEq, GoError.execution.injEq] at hc
    omega
  · intro current st iterations visited path es h1 iters h2 h3
    rw [execLoop.eq_def]
    simp only [if_neg h1, dif_neg h2, h3]
    constructor
    · simp only [ite_trace, countNodeExecs_append]
      split_ifs <;> simp [countNodeExecs]
    · intro n s p hc
      exact absurd hc (by simp)
  · intro current st iterations visited path es
    dsimp only
    intro h1 h2 node h3 cause h4
    simp only [eq_self_iff_true, dite_eq_ite, if_true] at h4
    rw [execLoop.eq_def]
    simp only [if_neg h1, dif_neg h2, h3, eq_self_iff_true, dite_eq_ite, if_true,
      h4]
    constructor
    · simp only [ite_trace, countNodeExecs_append]
      split_ifs <;> simp [countNodeExecs] <;> omega
    · intro n s p hc
      exact absurd hc (by simp)
  · intro current st iterations visited path es
    dsimp only
    intro h1 h2 node h3 h4 failed h5
    simp only [MemStore.Save] at h5
    split at h5 <;> exact absurd h5 (by simp)
  · intro current st iterations visited path es
    dsimp only
    intro h1 h2 node h3 h4 es5 h5 h6
    simp only [eq_self_iff_true, dite_eq_ite, if_true] at h4
    rw [execLoop.eq_def]
    simp only [if_neg h1, dif_neg h2, h3, eq_self_iff_true, dite_eq_ite, if_true,
      h4, MemStore.Save, h6]
    by_cases hck : g.checkpointInterval > 0 ∧ (iterations + 1) % g.checkpointInterval = 0
    · simp only [if_pos hck]
      constructor
      · simp only [ite_trace, countNodeExecs_append]
        split_ifs <;> simp [countNodeExecs] <;> omega
      · intro n s p hc
        exact absurd hc (by simp)
    · simp only [if_neg hck]
      constructor
      · simp only [ite_trace, countNodeExecs_append]
        split_ifs <;> simp [countNodeExecs] <;> omega
      · intro n s p hc
        exact absurd hc (by simp)
  · intro current st iterations visited path es
    dsimp only
    intro h1 h2 node h3 h4 es5 h5 h6 h7
    simp only [eq_self_iff_true, dite_eq_ite, if_true] at h4
    rw [execLoop.eq_def]
    simp only [if_neg h1, dif_neg h2, h3, eq_self_iff_true, dite_eq_ite, if_true,
      h4, MemStore.Save, if_neg h6, h7]
    by_cases hck : g.checkpointInterval > 0 ∧ (iterations + 1) % g.checkpointInterval = 0
    · simp only [if_pos hck]
      constructor
      · simp only [ite_trace, countNodeExecs_append]
        split_ifs <;> simp [countNodeExecs] <;> omega
      · intro n s p hc
        exact absurd hc (by simp)
    · simp only [if_neg hck]
      constructor
      · simp only [ite_trace, countNodeExecs_append]
        split_ifs <;> simp [countNodeExecs] <;> omega
      · intro n s p hc
        exact absurd hc (by simp)
  · intro current st iterations visited path es
    dsimp only
    intro h1 h2 node h3 h4 es5 h5 h6 edges h7 h8
    simp only [eq_self_iff_true, dite_eq_ite, if_true] at h4
    simp only [eq_self_iff_true, dite_eq_ite, if_true, MemStore.Save, h4] at h5 h8
    rw [execLoop.eq_def]
    simp only [if_neg h1, dif_neg h2, h3, eq_self_iff_true, dite_eq_ite, if_true,
      h4, MemStore.Save, if_neg h6, h7]
    by_cases hck : g.checkpointInterval > 0 ∧ (iterations + 1) % g.checkpointInterval = 0
    · simp only [if_pos hck] at h5 ⊢
      injection h5 with h5
      subst h5
      simp only [if_pos h8]
      constructor
      · simp only [ite_trace, countNodeExecs_append, countNodeExecs_scanEdges]
        split_ifs <;> simp [countNodeExecs] <;> omega
      · intro n s p hc
        exact absurd hc (by simp)
    · simp only [if_neg hck] at h5 ⊢
      injection h5 with h5
      subst h5
      simp only [if_pos h8]
      constructor
      · simp only [ite_trace, countNodeExecs_append, countNodeExecs_scanEdges]
        split_ifs <;> simp [countNodeExecs] <;> omega
      · intro n s p hc
        exact absurd hc (by simp)
  · intro current st iterations visited path es
    dsimp only
    intro h1 h2 node h3 h4 es5 h5 h6 edges h7 h8 ih
    simp only [eq_self_iff_true, dite_eq_ite, if_true] at h4
    simp only [eq_self_iff_true, dite_eq_ite, if_true, MemStore.Save, h4] at h5 h8 ih
    rw [execLoop.eq_def]
    simp only [if_neg h1, dif_neg h2, h3, eq_self_iff_true, dite_eq_ite, if_true,
      h4, MemStore.Save, if_neg h6, h7]
    by_cases hck : g.checkpointInterval > 0 ∧ (iterations + 1) % g.checkpointInterval = 0
    · simp only [if_pos hck] at h5 ⊢
      injection h5 with h5
      subst h5
      simp only [if_neg h8]
      obtain ⟨ihA, ihB⟩ := ih
      constructor
      · refine le_trans ihA ?_
        simp only [ite_trace, countNodeExecs_append, countNodeExecs_scanEdges]
        split_ifs <;> simp [countNodeExecs] <;> omega
      · intro n s p hc
        rw [ihB n s p hc]
        simp only [ite_trace, countNodeExecs_append, countNodeExecs_scanEdges]
        split_ifs <;> simp [countNodeExecs] <;> omega
    · simp only [if_neg hck] at h5 ⊢
      injection h5 with h5
      subst h5
      simp only [if_neg h8]
      obtain ⟨ihA, ihB⟩ := ih
      constructor
      · refine le_trans ihA ?_
        simp only [ite_trace, countNodeExecs_append, countNodeExecs_scanEdges]
        split_ifs <;> simp [countNodeExecs] <;> omega
      · intro n s p hc
        rw [ihB n s p hc]
        simp only [ite_trace, countNodeExecs_append, countNodeExecs_scanEdges]
        split_ifs <;> simp [countNodeExecs] <;> omega

/-- C4: with `maxIterations = N`, `Execute` performs at most `N` node
executions (the loop counts every node execution, revisits included), and
when it returns the `ExecutionError` whose cause is the max-iterations error
it has performed exactly `N` -- the error fires as soon as the count would
exceed `N`.  Termination itself is intrinsic: `execLoop` is total by its
termination measure. -/
theorem execute_iteration_cap {α : Type} (g : Graph α) (ctx : Ctx)
    (initialState : State) (es : ExecState α) (htr : es.trace = []) :
    countNodeExecs (g.Execute ctx initialState es).es.trace ≤ g.maxIterations.toNat
    ∧ (∀ n s p,
        (g.Execute ctx initialState es).error =
          some (GoError.execution n s p
            (GoError.maxIterationsExceeded g.maxIterations)) →
        countNodeExecs (g.Execute ctx initialState es).es.trace
          = g.maxIterations.toNat) := by
  unfold Graph.Execute
  match hv : g.Validate with
  | some err =>
    refine ⟨by simp [htr, countNodeExecs], ?_⟩
    intro n s p hc
    exact absurd hc (by simp)
  | none =>
    dsimp only
    have h := execLoop_count g ctx g.entryPoint initialState 0 (fun _ => 0) []
      { es with trace := es.trace ++
          [GEvent.graphStart g.entryPoint initialState.runID g.exitPoints.length] }
    have hc0 : countNodeExecs (es.trace ++
        [GEvent.graphStart g.entryPoint initialState.runID g.exitPoints.length]) = 0 := by
      simp [htr, countNodeExecs]
    rw [hc0] at h
    simpa using h

set_option maxHeartbeats 4000000 in
/-- Helper: with a non-positive checkpoint interval the traversal loop never
calls `Save` or `Delete` on the checkpoint store (both calls are guarded by
`checkpointInterval > 0`). -/
theorem execLoop_no_store_calls {α : Type} (g : Graph α) (ctx : Ctx)
    (hI : g.checkpointInterval ≤ 0)
    (current : String) (st : State) (iterations : Int) (visited : String → Int)
    (path : List String) (es : ExecState α) :
    (execLoop g ctx current st iterations visited path es).es.saves = es.saves
    ∧ (execLoop g ctx current st iterations visited path es).es.deletes
        = es.deletes := by
  have hck0 : ∀ j : Int, ¬ (g.checkpointInterval > 0 ∧ j % g.checkpointInterval = 0) :=
    fun j h => absurd h.1 (by omega)
  have hdel0 : ∀ b : Bool, ¬ (¬ b = true ∧ g.checkpointInterval > 0) :=
    fun b h => absurd h.2 (by omega)
  refine execLoop.induct g ctx
    (fun current st iterations visited path es =>
      (execLoop g ctx current st iterations visited path es).es.saves = es.saves
      ∧ (execLoop g ctx current st iterations visited path es).es.deletes
          = es.deletes)
    ?_ ?_ ?_ ?_ ?_ ?_ ?_ ?_ ?_ current st iterations visited path es
  · intro current st iterations visited path es h1
    rw [execLoop.eq_def]
    simp only [h1, if_true]
    exact ⟨trivial, trivial⟩
  · intro current st iterations visited path es h1 iters h2
    rw [execLoop.eq_def]
    simp only [if_neg h1, dif_pos h2]
    exact ⟨trivial, trivial⟩
  · intro current st iterations visited path es h1 iters h2 h3
    rw [execLoop.eq_def]
    simp only [if_neg h1, dif_neg h2, h3]
    constructor <;> (split_ifs <;> rfl)
  · intro current st iterations visited path es
    dsimp only
    intro h1 h2 node h3 cause h4
    simp only [eq_self_iff_true, dite_eq_ite, if_true] at h4
    rw [execLoop.eq_def]
    simp only [if_neg h1, dif_neg h2, h3, eq_self_iff_true, dite_eq_ite, if_true,
      h4]
    constructor <;> (split_ifs <;> rfl)
  · intro current st iterations visited path es
    dsimp only
    intro h1 h2 node h3 h4 failed h5
    simp only [MemStore.Save] at h5
    split at h5 <;> exact absurd h5 (by simp)
  · intro current st iterations visited path es
    dsimp only
    intro h1 h2 node h3 h4 es5 h5 h6
    simp only [eq_self_iff_true, dite_eq_ite, if_true] at h4
    rw [execLoop.eq_def]
    simp only [if_neg h1, dif_neg h2, h3, eq_self_iff_true, dite_eq_ite, if_true,
      h4, MemStore.Save, h6, if_neg (hck0 (iterations + 1)),
      if_neg (hdel0 g.preserverCheckpoints)]
    constructor <;> (split_ifs <;> rfl)
  · intro current st iterations visited path es
    dsimp only
    intro h1 h2 node h3 h4 es5 h5 h6 h7
    simp only [eq_self_iff_true, dite_eq_ite, if_true] at h4
    rw [execLoop.eq_def]
    simp only [if_neg h1, dif_neg h2, h3, eq_self_iff_true, dite_eq_ite, if_true,
      h4, MemStore.Save, if_neg h6, h7, if_neg (hck0 (iterations + 1))]
    constructor <;> (split_ifs <;> rfl)
  · intro current st iterations visited path es
    dsimp only
    intro h1 h2 node h3 h4 es5 h5 h6 edges h7 h8
    simp only [eq_self_iff_true, dite_eq_ite, if_true] at h4
    simp only [eq_self_iff_true, dite_eq_ite, if_true, MemStore.Save, h4,
      if_neg (hck0 (iterations + 1))] at h5 h8
    rw [execLoop.eq_def]
    simp only [if_neg h1, dif_neg h2, h3, eq_self_iff_true, dite_eq_ite, if_true,
      h4, MemStore.Save, if_neg h6, h7, if_neg (hck0 (iterations + 1))]
    injection h5 with h5
    subst h5
    simp only [if_pos h8]
    constructor <;> (split_ifs <;> rfl)
  · intro current st iterations visited path es
    dsimp only
    intro h1 h2 node h3 h4 es5 h5 h6 edges h7 h8 ih
    simp only [eq_self_iff_true, dite_eq_ite, if_true] at h4
    simp only [eq_self_iff_true, dite_eq_ite, if_true, MemStore.Save, h4,
      if_neg (hck0 (iterations + 1))] at h5 h8 ih
    rw [execLoop.eq_def]
    simp only [if_neg h1, dif_neg h2, h3, eq_self_iff_true, dite_eq_ite, if_true,
      h4, MemStore.Save, if_neg h6, h7, if_neg (hck0 (iterations + 1))]
    injection h5 with h5
    subst h5
    simp only [if_neg h8]
    obtain ⟨ihA, ihB⟩ := ih
    rw [ihA, ihB]
    constructor <;> (split_ifs <;> rfl)

/-- C10: for a configuration with checkpoint interval at most 0, `NewGraph`
never consults the checkpoint-store registry (its result is the same for
every registry contents, so an unregistered or empty store name causes no
construction error), construction succeeds whenever the observer resolves,
the constructed graph has no checkpoint store, and `Execute` on any graph
with non-positive interval makes no `Save` or `Delete` call on any store. -/
theorem checkpoint_disabled_no_store {α : Type} (cfg : GraphConfig)
    (observerRegistry storesA storesB : GoMap Unit)
    (hI : cfg.Checkpoint.Interval ≤ 0) :
    NewGraph α observerRegistry storesA cfg = NewGraph α observerRegistry storesB cfg
    ∧ (∀ u, GetObserver observerRegistry cfg.Observer = Except.ok u →
        ∃ g, NewGraph α observerRegistry storesA cfg = Except.ok g)
    ∧ (∀ g : Graph α, NewGraph α observerRegistry storesA cfg = Except.ok g →
        g.checkpointStore = none ∧ g.checkpointInterval ≤ 0)
    ∧ (∀ (g : Graph α) (ctx : Ctx) (initialState : State) (es : ExecState α),
        g.checkpointInterval ≤ 0 →
        (g.Execute ctx initialState es).es.saves = es.saves
        ∧ (g.Execute ctx initialState es).es.deletes = es.deletes) := by
  have hI2 : ¬ cfg.Checkpoint.Interval > 0 := by omega
  refine ⟨?_, ?_, ?_, ?_⟩
  · unfold NewGraph
    cases GetObserver observerRegistry cfg.Observer <;> simp [hI2]
  · intro u hu
    unfold NewGraph
    rw [hu]
    simp [hI2]
  · intro g hg
    unfold NewGraph at hg
    cases hobs : GetObserver observerRegistry cfg.Observer with
    | error e => rw [hobs] at hg; exact absurd hg (by simp)
    | ok u =>
      rw [hobs] at hg
      simp only [hI2, if_false, if_neg] at hg
      injection hg with hg
      subst hg
      exact ⟨rfl, hI⟩
  · intro g ctx initialState es hgI
    unfold Graph.Execute
    match hv : g.Validate with
    | some err => exact ⟨rfl, rfl⟩
    | none =>
      dsimp only
      exact execLoop_no_store_calls g ctx hgI g.entryPoint initialState 0
        (fun _ => 0) [] _

/-- Helper: push the `world` projection through an `if`. -/
theorem ite_world {α : Type} (c : Prop) [Decidable c] (a b : ExecState α) :
    (if c then a else b).world = if c then a.world else b.world := by
  split <;> rfl

/-- Helper: every error value satisfies `errors.Is` with itself. -/
theorem errorsIs_self (e : GoError) : e.errorsIs e = true := by
  cases e <;> simp [GoError.errorsIs]

/-- C3: whenever the current node's `Execute` returns an error during graph
traversal (any reachable loop configuration whose cancellation and
iteration-cap checks pass and whose node lookup succeeds), the traversal
loop of graph `Execute` returns an `ExecutionError` whose `NodeName` is the
failing node, whose `State` is the pre-update state (the state passed to the
node, before the `SetCheckpointNode` update), whose `Path` is the full
visited path including the failing node, and which unwraps (`errors.Is`) to
the node's underlying error through the node-execution-failed wrap. -/
theorem node_error_returns_execution_error {α : Type} (g : Graph α) (ctx : Ctx)
    (current : String) (st : State) (iterations : Int) (visited : String → Int)
    (path : List String) (es : ExecState α) (node : StateNode α)
    (w2 : World α) (s2 : State) (cause : GoError)
    (h1 : ¬ ctx iterations = true)
    (h2 : ¬ iterations + 1 > g.maxIterations)
    (h3 : alistGet g.nodes current = some node)
    (h4 : node es.world st = (w2, s2, some cause)) :
    (execLoop g ctx current st iterations visited path es).error
        = some (GoError.execution current st (path ++ [current])
            (GoError.nodeExecutionFailed cause))
    ∧ (execLoop g ctx current st iterations visited path es).state = st
    ∧ (execLoop g ctx current st iterations visited path es).path
        = path ++ [current]
    ∧ GoError.errorsIs
        (GoError.execution current st (path ++ [current])
          (GoError.nodeExecutionFailed cause)) cause = true := by
  rw [execLoop.eq_def]
  simp only [if_neg h1, dif_neg h2, h3, ite_world, ite_self, h4]
  refine ⟨trivial, trivial, trivial, ?_⟩
  simp [GoError.errorsIs, errorsIs_self]

/-- Helper for C5: the edge-evaluation loop of `Execute` returns the target
of the first edge, in insertion order, whose predicate is nil or evaluates
true on the current state (`List.find?` semantics), and the empty string if
none matches. -/
theorem scanEdges_first_match {α : Type} (w : World α) (st : State)
    (edges : List (Edge α)) (i : Nat) :
    (scanEdges w st edges i).2 =
      match edges.find? (fun e => predHolds w st e.Predicate) with
      | some e => e.To
      | none => "" := by
  induction edges generalizing i with
  | nil => rfl
  | cons e rest ih =>
    rw [scanEdges, List.find?]
    cases hp : predHolds w st e.Predicate <;> simp [hp, ih (i + 1)]

/-- Helper for C5: one unrolling of the traversal loop at a non-exit node
with outgoing edges: if no edge matches, the loop fails with the
no-valid-transition `ExecutionError`; otherwise it transitions to the
selected edge's target with the updated state, counter, visit map and
path. -/
theorem edge_selection_step {α : Type} (g : Graph α) (ctx : Ctx)
    (current : String) (st : State) (iterations : Int) (visited : String → Int)
    (path : List String) (es : ExecState α) (node : StateNode α)
    (w2 w3 : World α) (s2 st2 : State) (edges : List (Edge α))
    (h1 : ¬ ctx iterations = true)
    (h2 : ¬ iterations + 1 > g.maxIterations)
    (h3 : alistGet g.nodes current = some node)
    (h4 : node es.world st = (w2, s2, none))
    (h5 : s2.SetCheckpointNode w2 current = (w3, st2))
    (h6 : g.isExitPoint current = false)
    (h7 : alistGet g.edges current = some edges) :
    ((scanEdges w3 st2 edges 0).2 = "" →
      (execLoop g ctx current st iterations visited path es).error
          = some (GoError.execution current st2 (path ++ [current])
              (GoError.noValidTransition current))
      ∧ (execLoop g ctx current st iterations visited path es).state = st2)
    ∧ (∀ nxt, (scanEdges w3 st2 edges 0).2 = nxt → ¬ nxt = "" →
      ∃ es2, execLoop g ctx current st iterations visited path es
          = execLoop g ctx nxt st2 (iterations + 1)
              (fun n => if n = current then visited n + 1 else visited n)
              (path ++ [current]) es2) := by
  have h6n : ¬ g.isExitPoint current = true := by simp [h6]
  rw [execLoop.eq_def]
  simp only [if_neg h1, dif_neg h2, h3, ite_world, ite_self, h4, h5,
    MemStore.Save, if_neg h6n, h7]
  by_cases hck : g.checkpointInterval > 0 ∧ (iterations + 1) % g.checkpointInterval = 0
  · simp only [if_pos hck]
    constructor
    · intro hscan
      simp only [if_pos hscan]
      exact ⟨trivial, trivial⟩
    · intro nxt hscan hne
      rw [hscan]
      simp only [if_neg hne]
      exact ⟨_, rfl⟩
  · simp only [if_neg hck]
    constructor
    · intro hscan
      simp only [if_pos hscan]
      exact ⟨trivial, trivial⟩
    · intro nxt hscan hne
      rw [hscan]
      simp only [if_neg hne]
      exact ⟨_, rfl⟩

/-- C5: at every non-exit node that has outgoing edges, `Execute` evaluates
the edges in insertion order and transitions along the first edge whose
predicate is nil or evaluates true on the current state (first conjunct:
the edge loop implements first-match-in-insertion-order; second conjunct:
the traversal loop fails with the no-valid-transition `ExecutionError` when
no edge matches and otherwise continues at the selected target). -/
theorem edges_insertion_order_first_match {α : Type} :
    (∀ (w : World α) (st : State) (edges : List (Edge α)) (i : Nat),
      (scanEdges w st edges i).2 =
        match edges.find? (fun e => predHolds w st e.Predicate) with
        | some e => e.To
        | none => "")
    ∧ (∀ (g : Graph α) (ctx : Ctx) (current : String) (st : State)
        (iterations : Int) (visited : String → Int) (path : List String)
        (es : ExecState α) (node : StateNode α) (w2 w3 : World α)
        (s2 st2 : State) (edges : List (Edge α)),
        ¬ ctx iterations = true →
        ¬ iterations + 1 > g.maxIterations →
        alistGet g.nodes current = some node →
        node es.world st = (w2, s2, none) →
        s2.SetCheckpointNode w2 current = (w3, st2) →
        g.isExitPoint current = false →
        alistGet g.edges current = some edges →
        (((scanEdges w3 st2 edges 0).2 = "" →
          (execLoop g ctx current st iterations visited path es).error
              = some (GoError.execution current st2 (path ++ [current])
                  (GoError.noValidTransition current))
          ∧ (execLoop g ctx current st iterations visited path es).state = st2)
        ∧ (∀ nxt, (scanEdges w3 st2 edges 0).2 = nxt → ¬ nxt = "" →
          ∃ es2, execLoop g ctx current st iterations visited path es
              = execLoop g ctx nxt st2 (iterations + 1)
                  (fun n => if n = current then visited n + 1 else visited n)
                  (path ++ [current]) es2))) :=
  ⟨fun w st edges i => scanEdges_first_match w st edges i,
   fun g ctx current st iterations visited path es node w2 w3 s2 st2 edges
       h1 h2 h3 h4 h5 h6 h7 =>
     edge_selection_step g ctx current st iterations visited path es node
       w2 w3 s2 st2 edges h1 h2 h3 h4 h5 h6 h7⟩

/-- C1 (amended): for every graph with a configured checkpoint store and
every runID whose loaded checkpoint's `checkpointNode` is an exit point of
the graph AND has no outgoing edges, `Resume` fails with the
checkpoint-at-exit-point error (message: execution already complete),
wrapped by `findNextNode`'s caller, returning the zero State.  The original
claim's "regardless of whether that node has outgoing edges" is refuted by
`resume_exit_point_with_edges_counterexample`: `findNextNode` only reports
already-complete when the checkpoint node has no outgoing edges. -/
theorem resume_at_exit_point_without_edges_fails {α : Type} (g : Graph α)
    (ctx : Ctx) (runID : String) (es : ExecState α) (st : State) (u : Unit)
    (hstore : g.checkpointStore = some u)
    (hload : MemStore.Load es.store runID = Except.ok st)
    (hedges : alistGet g.edges st.checkpointNode = none)
    (hexit : g.isExitPoint st.checkpointNode = true) :
    (g.Resume ctx runID es).error
      = some (GoError.failedToFindNextNode GoError.checkpointAtExitPoint)
    ∧ (g.Resume ctx runID es).state = State.goZero := by
  unfold Graph.Resume Graph.findNextNode
  simp only [hstore, hload, hedges, hexit, if_true]
  exact ⟨trivial, trivial⟩

/-- C1 (counterexample): a graph with a configured checkpoint store and a
stored checkpoint whose `checkpointNode` `A` is an exit point, where `A` has
an outgoing unconditional edge: `Resume` does not fail at all (it evaluates
the edge, resumes at `B`, and succeeds), contradicting the claim that it
fails with an execution-already-complete error regardless of outgoing
edges. -/
theorem resume_exit_point_with_edges_counterexample :
    gResumeW.checkpointStore = some ()
    ∧ MemStore.Load esW.store "r" = Except.ok stW
    ∧ gResumeW.isExitPoint stW.checkpointNode = true
    ∧ (alistGet gResumeW.edges stW.checkpointNode).isSome = true
    ∧ (gResumeW.Resume Ctx.background "r" esW).error = none := by
  refine ⟨rfl, by rfl, by decide, by decide, ?_⟩
  simp [Graph.Resume, Graph.executeFrom, Graph.findNextNode, findNextLoop,
    MemStore.Load, GoMap.lookup, GoMap.assign, esW, gResumeW, stW,
    Graph.Validate, alistGet, executeFromLoop, Ctx.background, predHolds,
    Graph.isExitPoint, nodeOkW, State.SetCheckpointNode, State.Clone,
    World.allocMap, World.now, World.readMap, mapsClone, MemStore.Save,
    wZero, List.find?, scanEdgesResume]

/-- Witness for C1 (amended) at the concrete graph whose exit point `A` has
no outgoing edges. -/
theorem resume_at_exit_point_without_edges_fails_witness :
    (gExitNoEdgesW.Resume Ctx.background "r" esW).error
      = some (GoError.failedToFindNextNode GoError.checkpointAtExitPoint)
    ∧ (gExitNoEdgesW.Resume Ctx.background "r" esW).state = State.goZero :=
  resume_at_exit_point_without_edges_fails gExitNoEdgesW Ctx.background "r"
    esW stW () rfl (by rfl) (by rfl) (by decide)

/-- Witness for C2 at a concrete one-node graph that executes successfully. -/
theorem execute_success_ends_at_exit_point_witness :
    ∃ last, (gTrivW.Execute Ctx.background stW esEmptyW).path.getLast?
        = some last
      ∧ gTrivW.isExitPoint last = true :=
  execute_success_ends_at_exit_point gTrivW Ctx.background stW esEmptyW (by
    simp [Graph.Execute, Graph.Validate, execLoop, gTrivW, stW, esEmptyW,
      Ctx.background, alistGet, nodeOkW, State.SetCheckpointNode, State.Clone,
      World.allocMap, World.now, World.readMap, mapsClone, Graph.isExitPoint,
      wZero, List.find?, MemStore.Save, scanEdges, predHolds])

/-- Witness for C3 at a concrete graph whose only node fails. -/
theorem node_error_returns_execution_error_witness :
    (execLoop gFailW Ctx.background "A" stW 0 (fun _ => 0) [] esEmptyW).error
        = some (GoError.execution "A" stW ["A"]
            (GoError.nodeExecutionFailed (GoError.external 0 "boom")))
    ∧ (execLoop gFailW Ctx.background "A" stW 0 (fun _ => 0) [] esEmptyW).state
        = stW
    ∧ (execLoop gFailW Ctx.background "A" stW 0 (fun _ => 0) [] esEmptyW).path
        = ["A"]
    ∧ GoError.errorsIs
        (GoError.execution "A" stW ["A"]
          (GoError.nodeExecutionFailed (GoError.external 0 "boom")))
        (GoError.external 0 "boom") = true :=
  node_error_returns_execution_error gFailW Ctx.background "A" stW 0
    (fun _ => 0) [] esEmptyW nodeFailW wZero stW (GoError.external 0 "boom")
    (by decide) (by decide) rfl rfl

/-- Witness for C4 at a concrete graph. -/
theorem execute_iteration_cap_witness :
    countNodeExecs (gTrivW.Execute Ctx.background stW esEmptyW).es.trace
        ≤ gTrivW.maxIterations.toNat
    ∧ (∀ n s p,
        (gTrivW.Execute Ctx.background stW esEmptyW).error =
          some (GoError.execution n s p
            (GoError.maxIterationsExceeded gTrivW.maxIterations)) →
        countNodeExecs (gTrivW.Execute Ctx.background stW esEmptyW).es.trace
          = gTrivW.maxIterations.toNat) :=
  execute_iteration_cap gTrivW Ctx.background stW esEmptyW rfl

/-- Witness for C5 at a concrete two-node graph with one unconditional
edge. -/
theorem edges_insertion_order_first_match_witness :
    ((scanEdges wZero stW [{ From := "A", To := "B", Predicate := none }] 0).2
      = match List.find?
          (fun e => predHolds wZero stW e.Predicate)
          [({ From := "A", To := "B", Predicate := none } : Edge Nat)] with
        | some e => e.To
        | none => "")
    ∧ (∃ es2, execLoop gEdgeW Ctx.background "A" stW 0 (fun _ => 0) [] esEmptyW
        = execLoop gEdgeW Ctx.background "B"
            (stW.SetCheckpointNode wZero "A").2 1
            (fun n => if n = "A" then 0 + 1 else 0) ["A"] es2) :=
  ⟨(edges_insertion_order_first_match.1 wZero stW
      [{ From := "A", To := "B", Predicate := none }] 0),
   (edges_insertion_order_first_match.2 gEdgeW Ctx.background "A" stW 0
      (fun _ => 0) [] esEmptyW nodeOkW wZero
      (stW.SetCheckpointNode wZero "A").1 stW
      (stW.SetCheckpointNode wZero "A").2
      [{ From := "A", To := "B", Predicate := none }]
      (by decide) (by decide) rfl rfl rfl (by decide) rfl).2 "B" rfl (by decide)⟩

/-- Witness for C6 at a concrete state and heap. -/
theorem set_get_and_receiver_unchanged_witness :
    (stW.Set wZero "k" (42 : Nat)).2.Get (stW.Set wZero "k" 42).1 "k"
        = (some 42, true)
    ∧ (stW.Set wZero "k" (42 : Nat)).1.readMap stW.data
        = wZero.readMap stW.data :=
  set_get_and_receiver_unchanged wZero stW "k" 42 (by decide)

/-- Witness for C7 at two concrete states over distinct heap cells. -/
theorem merge_get_and_receivers_unchanged_witness :
    ((stW.Merge wZero stW2).2.Get (stW.Merge wZero stW2).1 "k" =
      if ((wZero.readMap stW2.data).lookup "k").isSome then stW2.Get wZero "k"
      else stW.Get wZero "k")
    ∧ (stW.Merge wZero stW2).1.readMap stW.data = wZero.readMap stW.data
    ∧ (stW.Merge wZero stW2).1.readMap stW2.data = wZero.readMap stW2.data :=
  merge_get_and_receivers_unchanged wZero stW stW2 "k" (by decide) (by decide)

/-- Witness for C10 at a concrete configuration with interval 0 and an
unregistered empty store name, against two different store registries. -/
theorem checkpoint_disabled_no_store_witness :
    NewGraph Nat defaultObservers defaultCheckpointStores cfgW
        = NewGraph Nat defaultObservers GoMap.empty cfgW
    ∧ (∀ u, GetObserver defaultObservers cfgW.Observer = Except.ok u →
        ∃ g, NewGraph Nat defaultObservers defaultCheckpointStores cfgW
          = Except.ok g)
    ∧ (∀ g : Graph Nat,
        NewGraph Nat defaultObservers defaultCheckpointStores cfgW
          = Except.ok g →
        g.checkpointStore = none ∧ g.checkpointInterval ≤ 0)
    ∧ (∀ (g : Graph Nat) (ctx : Ctx) (initialState : State) (es : ExecState Nat),
        g.checkpointInterval ≤ 0 →
        (g.Execute ctx initialState es).es.saves = es.saves
        ∧ (g.Execute ctx initialState es).es.deletes = es.deletes) :=
  checkpoint_disabled_no_store cfgW defaultObservers defaultCheckpointStores
    GoMap.empty (by decide)
